import Mathlib

/-!
Verification development for the Chile metrics collector (`script.py`).

The script fetches JSON from three Chilean public APIs (weather, seismic,
currency), turns records into metrics, and pushes them to a remote endpoint
with an Influx-line-protocol attempt followed by a simple-exposition-format
fallback.  We give a shallow embedding of the pure data pipeline: raw records
are association lists of string fields (the upstream APIs deliver string
fields; absent keys model missing fields), Python `float(str)` is modelled
exactly as a decimal mantissa/exponent pair extended with infinities and NaN,
and the network is modelled by outcome parameters supplied to the functions
that consume it.
-/

/-- Python float values as produced by `float(...)`: `finite m e` denotes the
exact decimal `m * 10 ^ e` (the script only ever parses decimal strings,
which this captures exactly; IEEE double rounding, overflow-to-infinity of
huge literals and signed zero are not modelled), plus the infinities and NaN,
which Python's `float` produces from the literals `"inf"`, `"infinity"`,
`"nan"` (case-insensitively, optionally signed). -/
inductive PyNum where
  | finite (m : ℤ) (e : ℤ)
  | pinf
  | ninf
  | nan
deriving DecidableEq, Repr

/-- Finiteness of a Python float value (`math.isfinite`). -/
def PyNum.isFinite : PyNum → Bool
  | .finite _ _ => true
  | _ => false

/-- The rational value denoted by a finite `PyNum`; `none` for `inf`/`nan`. -/
def PyNum.toRat : PyNum → Option ℚ
  | .finite m e => some ((m : ℚ) * (10 : ℚ) ^ e)
  | _ => none

/-- Characters stripped by `float(str)` around the payload (ASCII whitespace;
Python additionally strips some Unicode spaces, which never occur here). -/
def isPySpace (c : Char) : Bool :=
  c = ' ' || c = '\t' || c = '\n' || c = '\r' || c = '\x0b' || c = '\x0c'

/-- Strip leading and trailing whitespace from a character list. -/
def stripChars (l : List Char) : List Char :=
  ((l.dropWhile isPySpace).reverse.dropWhile isPySpace).reverse

/-- A digit or the underscore digit-group separator. -/
def isDigitOrU (c : Char) : Bool := c.isDigit || c = '_'

/-- CPython's rule for a run of digits with underscores: every character is a
digit or `_`, the run starts and ends with a digit, and no two underscores
are adjacent (so each `_` sits between two digits). -/
def validDigitRun (l : List Char) : Bool :=
  l.all (fun c => c.isDigit || c = '_') &&
  (match l.head? with | some c => c.isDigit | none => true) &&
  (match l.getLast? with | some c => c.isDigit | none => true) &&
  (l.zip l.tail).all (fun p => !(p.1 = '_' && p.2 = '_'))

/-- Numeric value of a list of digit characters (underscores already removed). -/
def digitsToNat (l : List Char) : ℕ :=
  l.foldl (fun acc c => 10 * acc + (c.toNat - '0'.toNat)) 0

/-- Parse the optional exponent suffix and finish a `float(str)` parse:
`ip`/`fp` are the integer- and fraction-part digit runs (underscores kept),
`r` is the remaining input, which must be empty or a full exponent part. -/
def finishDecimal (sign : ℤ) (ip fp r : List Char) : Option PyNum :=
  let ipd := ip.filter Char.isDigit
  let fpd := fp.filter Char.isDigit
  let mant : ℤ := sign * (digitsToNat (ipd ++ fpd) : ℤ)
  match r with
  | [] => some (.finite mant (-(fpd.length : ℤ)))
  | e :: rest =>
    if e = 'e' || e = 'E' then
      let (esign, rest2) : ℤ × List Char :=
        match rest with
        | '+' :: r2 => (1, r2)
        | '-' :: r2 => (-1, r2)
        | r2 => (1, r2)
      let (ed, r3) := rest2.span isDigitOrU
      if validDigitRun ed && !ed.isEmpty && r3.isEmpty then
        some (.finite mant (esign * (digitsToNat (ed.filter Char.isDigit) : ℤ) - (fpd.length : ℤ)))
      else none
    else none

/-- Parse the decimal (non-keyword) body of a `float(str)` literal after the
sign has been consumed. -/
def parseDecimal (sign : ℤ) (l : List Char) : Option PyNum :=
  let (ip, r1) := l.span isDigitOrU
  if !validDigitRun ip then none
  else
    match r1 with
    | '.' :: rest =>
      let (fp, r2) := rest.span isDigitOrU
      if !validDigitRun fp then none
      else if ip.isEmpty && fp.isEmpty then none
      else finishDecimal sign ip fp r2
    | _ => if ip.isEmpty then none else finishDecimal sign ip [] r1

/-- Model of Python's built-in `float : str -> float`: `none` when the call
raises `ValueError`.  Whitespace is stripped, an optional sign is read, the
case-insensitive keywords `inf`/`infinity`/`nan` are accepted, and otherwise
the usual decimal grammar (with `_` group separators between digits and an
optional `e`-exponent) must match the entire remaining input. -/
def pyFloat (s : String) : Option PyNum :=
  let l := stripChars s.data
  let (sign, body) : ℤ × List Char :=
    match l with
    | '+' :: r => (1, r)
    | '-' :: r => (-1, r)
    | r => (1, r)
  let low := body.map Char.toLower
  if low = "inf".data || low = "infinity".data then
    some (if sign = 1 then .pinf else .ninf)
  else if low = "nan".data then some .nan
  else parseDecimal sign body

/-- Python `str.strip()` with no argument: drop surrounding whitespace. -/
def pyStrip (s : String) : String := String.mk (stripChars s.data)

/-- One upstream JSON object, as an association list of string fields in
source order (the three APIs deliver flat objects with string values; a key
absent from the list models a missing field). -/
abbrev RawRecord : Type := List (String × String)

/-- Python `record.get(key, default)` restricted to present-or-absent string
fields: the first binding of `key`, if any. -/
def rget (r : RawRecord) (k : String) : Option String :=
  (r.find? (fun kv => kv.1 == k)).map (fun kv => kv.2)

/-- A protocol-agnostic metric: name, numeric value, ordered labels (Python
dicts preserve insertion order, hence an ordered association list). -/
structure Metric where
  name : String
  value : PyNum
  labels : List (String × String)
deriving DecidableEq, Repr

/-- Ordered concatenation of the per-record metric contributions, mirroring a
Python `for` loop that appends to a shared list. -/
def concatMapList (f : α → List β) : List α → List β
  | [] => []
  | a :: l => f a ++ concatMapList f l

/-- `float(record.get(key, 0))`: an absent field defaults to the integer `0`
(which converts to `0.0`), a present string field goes through `float`. -/
def pyFloatOrZero : Option String → Option PyNum
  | none => some (.finite 0 0)
  | some s => pyFloat s

/-- Weather loop body (`script.py` lines 167-188): extract station name and
code with `"Unknown"` defaults, parse `Temp` and `Humedad`, and append the
temperature and humidity metrics; a `ValueError` from either `float` call is
caught and the record contributes nothing. -/
def weatherRecordMetrics (station : RawRecord) : List Metric :=
  let station_name := (rget station "Estacion").getD "Unknown"
  let station_code := (rget station "Codigo").getD "Unknown"
  match pyFloatOrZero (rget station "Temp"), pyFloatOrZero (rget station "Humedad") with
  | some temp, some humidity =>
    [{ name := "chile_temperature_celsius", value := temp,
       labels := [("station", station_name), ("code", station_code)] },
     { name := "chile_humidity_percent", value := humidity,
       labels := [("station", station_name), ("code", station_code)] }]
  | _, _ => []

/-- All weather metrics: every fetched record is processed in order. -/
def collectWeather (weather_data : List RawRecord) : List Metric :=
  concatMapList weatherRecordMetrics weather_data

/-- `RefGeografica` sanitization (`script.py` lines 194-195): truncate to 40
characters, then remove double quotes, single quotes and commas (the three
single-character `str.replace` calls are charwise deletions). -/
def sanitizeLocation (s : String) : String :=
  String.mk ((((s.data.take 40).filter (fun c => c ≠ '"')).filter
    (fun c => c ≠ '\x27')).filter (fun c => c ≠ ','))

/-- Seismic loop body (`script.py` lines 192-209) for the record at position
`i` of the truncated list: sanitize the location, parse `Magnitud` and
`Profundidad`, and append the magnitude and depth metrics labeled with the
location and the positional index rendered as a string. -/
def quakeRecordMetrics (i : ℕ) (quake : RawRecord) : List Metric :=
  let location := sanitizeLocation ((rget quake "RefGeografica").getD "Unknown")
  match pyFloatOrZero (rget quake "Magnitud"), pyFloatOrZero (rget quake "Profundidad") with
  | some magnitude, some depth =>
    [{ name := "chile_earthquake_magnitude", value := magnitude,
       labels := [("location", location), ("index", toString i)] },
     { name := "chile_earthquake_depth_km", value := depth,
       labels := [("location", location), ("index", toString i)] }]
  | _, _ => []

/-- `for i, quake in enumerate(...)`: positional index threaded by the loop. -/
def quakeLoop (i : ℕ) : List RawRecord → List Metric
  | [] => []
  | q :: rest => quakeRecordMetrics i q ++ quakeLoop (i + 1) rest

/-- All seismic metrics: `quake_data[:10]` truncates to the first 10 records
before the enumerated loop runs. -/
def collectQuakes (quake_data : List RawRecord) : List Metric :=
  quakeLoop 0 (quake_data.take 10)

/-- The hardcoded currency allow-list (`script.py` line 217). -/
def important : List String :=
  ["UF", "USD", "EUR", "UTM", "GBP", "CAD", "AUD", "BRL", "ARS", "MXN"]

/-- `value_str = currency.get('Valor', '0').replace(',', '.')`: the
single-character `str.replace` is a charwise substitution. -/
def commaToDot (s : String) : String :=
  String.mk (s.data.map (fun c => if c = ',' then '.' else c))

/-- Currency loop body (`script.py` lines 219-237): strip the code and drop
the record unless it is allow-listed; otherwise strip the name, normalize the
decimal comma in `Valor` and parse it, appending one metric on success; a
`ValueError` from `float` is caught and the record contributes nothing. -/
def currencyRecordMetrics (currency : RawRecord) : List Metric :=
  let code := pyStrip ((rget currency "Codigo").getD "")
  if code ∈ important then
    let cname := pyStrip ((rget currency "Nombre").getD "Unknown")
    let value_str := commaToDot ((rget currency "Valor").getD "0")
    match pyFloat value_str with
    | some value =>
      [{ name := "chile_currency_clp", value := value,
         labels := [("code", code), ("name", cname)] }]
    | none => []
  else []

/-- All currency metrics: every fetched record is processed in order. -/
def collectCurrency (currency_data : List RawRecord) : List Metric :=
  concatMapList currencyRecordMetrics currency_data

/-- Outcome of one upstream GET, as seen by `fetch_json`: a decoded JSON
array of records on a 2xx response, or one of the failure modes that raise
inside the `try` block (transport errors, `raise_for_status` on an error
status, body-decode failure). -/
inductive FetchOutcome where
  | ok (data : List RawRecord)
  | transportError (msg : String)
  | httpError (status : ℕ)
  | decodeError (msg : String)
deriving DecidableEq, Repr

/-- `fetch_json` (`script.py` lines 22-30): return the decoded data, and on
any raised exception log and return the empty list; the function is total, so
no exception reaches the caller. -/
def fetch_json : FetchOutcome → List RawRecord
  | .ok data => data
  | .transportError _ => []
  | .httpError _ => []
  | .decodeError _ => []

/-- `collect_all_metrics` (`script.py` lines 161-239): fetch the three
endpoints and concatenate the weather, seismic and currency contributions
into one batch, in that order; the three fetch outcomes are supplied by the
network environment. -/
def collect_all_metrics (clima sismos monedas : FetchOutcome) : List Metric :=
  collectWeather (fetch_json clima) ++ collectQuakes (fetch_json sismos) ++
    collectCurrency (fetch_json monedas)

/-- Drop trailing decimal zeros: `(m, k)` denotes `m * 10 ^ (-k)`. -/
def stripTrailingZeros : ℤ → ℕ → ℤ × ℕ
  | m, 0 => (m, 0)
  | m, k + 1 => if m % 10 = 0 then stripTrailingZeros (m / 10) k else (m, k + 1)

/-- Decimal rendering of `m * 10 ^ (-k)` with at least one fractional digit,
e.g. `renderDec 215 1 = "21.5"` and `renderDec 45 0 = "45.0"`. -/
def renderDec (m : ℤ) (k : ℕ) : String :=
  if k = 0 then toString m ++ ".0"
  else
    let ds := Nat.toDigits 10 m.natAbs
    let ds := if ds.length ≤ k then List.replicate (k + 1 - ds.length) '0' ++ ds else ds
    (if m < 0 then "-" else "") ++
      String.mk (ds.take (ds.length - k)) ++ "." ++ String.mk (ds.drop (ds.length - k))

/-- Python `f"{value}"` for a float value.  For the decimal values arising
here this is the plain decimal expansion without trailing zeros; Python's
switch to scientific notation for very large or small magnitudes is not
modelled (no claim depends on the numeral text). -/
def pyNumStr : PyNum → String
  | .pinf => "inf"
  | .ninf => "-inf"
  | .nan => "nan"
  | .finite m e =>
    if 0 ≤ e then toString (m * 10 ^ e.toNat) ++ ".0"
    else
      let p := stripTrailingZeros m e.natAbs
      renderDec p.1 p.2

/-- Influx tag-value sanitization (`script.py` line 129):
`v.replace(" ", "_").replace(",", "")` — spaces become underscores, then
commas are deleted (both are single-character charwise operations). -/
def sanitizeTagValue (v : String) : String :=
  String.mk ((v.data.map (fun c => if c = ' ' then '_' else c)).filter (fun c => c ≠ ','))

/-- The comma-joined `key=value` tag string of an Influx line. -/
def influxTags (labels : List (String × String)) : String :=
  String.intercalate "," (labels.map (fun kv => kv.1 ++ "=" ++ sanitizeTagValue kv.2))

/-- One line of the Influx line-protocol body (`script.py` lines 122-134):
`name,tags value=<value> <timestamp_ns>`, the tag section omitted when the
metric has no labels. -/
def influxLine (timestamp_ns : ℕ) (m : Metric) : String :=
  if m.labels.isEmpty then
    m.name ++ " value=" ++ pyNumStr m.value ++ " " ++ toString timestamp_ns
  else
    m.name ++ "," ++ influxTags m.labels ++ " value=" ++ pyNumStr m.value ++ " " ++
      toString timestamp_ns

/-- The Influx push body (`script.py` lines 119-136): one line per metric
joined by newlines, all sharing the single nanosecond timestamp taken at the
start of `push_metrics_influx`. -/
def influxBody (timestamp_ns : ℕ) (metrics : List Metric) : String :=
  String.intercalate "\n" (metrics.map (influxLine timestamp_ns))

/-- Outcome of one HTTP POST to the push endpoint, as seen inside the pusher
`try` block: a 2xx response, an HTTP error status (`raise_for_status`), or a
transport-level exception. -/
inductive PostOutcome where
  | ok2xx
  | httpError (status : ℕ) (body : String)
  | transportError (msg : String)
deriving DecidableEq, Repr

/-- Result boolean of either pusher (`push_metrics_influx` lines 141-158 and
`push_metrics_simple` lines 95-112): `True` exactly on a 2xx response; every
raised exception is caught, logged and turned into `False`, so the pusher is
total and nothing propagates past it. -/
def pushResult : PostOutcome → Bool
  | .ok2xx => true
  | .httpError _ _ => false
  | .transportError _ => false

/-- The two wire protocols tried by `main`. -/
inductive Protocol where
  | influx
  | simple
deriving DecidableEq, Repr

/-- The push attempts performed by `main` (`script.py` lines 256-263), each
paired with its success boolean: the Influx push first; exactly when it
fails, one fallback attempt with the simple protocol; nothing after that. -/
def pushPhase (influxPost simplePost : PostOutcome) : List (Protocol × Bool) :=
  if pushResult influxPost then [(Protocol.influx, true)]
  else [(Protocol.influx, false), (Protocol.simple, pushResult simplePost)]

/-- The three required environment settings; `os.environ.get(_, "")` maps an
absent variable to the empty string, so "absent" is modelled as `""`. -/
structure Config where
  PROMETHEUS_URL : String
  PROMETHEUS_USER : String
  PROMETHEUS_PASSWORD : String

/-- The `all([PROMETHEUS_URL, PROMETHEUS_USER, PROMETHEUS_PASSWORD])` guard
(`script.py` line 248): all three settings are non-empty (Python string
truthiness). -/
def configOk (cfg : Config) : Bool :=
  cfg.PROMETHEUS_URL != "" && cfg.PROMETHEUS_USER != "" && cfg.PROMETHEUS_PASSWORD != ""

def API_CLIMA : String := "https://api.gael.cloud/general/public/clima"
def API_SISMOS : String := "https://api.gael.cloud/general/public/sismos"
def API_MONEDAS : String := "https://api.gael.cloud/general/public/monedas"

/-- Externally visible run events, in order: upstream GETs, push attempts
with their success boolean, and the diagnostic non-zero `exit(1)`. -/
inductive Ev where
  | fetchGet (url : String)
  | pushAttempt (p : Protocol) (ok : Bool)
  | exitNonzero
deriving DecidableEq, Repr

/-- The network environment of one run: an outcome per upstream GET and per
possible push POST. -/
structure NetEnv where
  clima : FetchOutcome
  sismos : FetchOutcome
  monedas : FetchOutcome
  influxPost : PostOutcome
  simplePost : PostOutcome

/-- Event trace of `main` (`script.py` lines 242-263): after the banner
prints, a missing setting makes the process exit non-zero with a diagnostic
and nothing else happens; otherwise the three upstream GETs run (inside
`collect_all_metrics`) followed by the push phase. -/
def mainEvents (cfg : Config) (env : NetEnv) : List Ev :=
  if configOk cfg then
    [Ev.fetchGet API_CLIMA, Ev.fetchGet API_SISMOS, Ev.fetchGet API_MONEDAS] ++
      (pushPhase env.influxPost env.simplePost).map (fun a => Ev.pushAttempt a.1 a.2)
  else [Ev.exitNonzero]

/-- Process exit code of `main`: `exit(1)` on missing configuration, the
implicit `0` otherwise (push failures do not change the exit code). -/
def mainExitCode (cfg : Config) : ℕ :=
  if configOk cfg then 0 else 1

/-! ## Helper lemmas -/

theorem weatherRecordMetrics_cases (r : RawRecord) :
    weatherRecordMetrics r = [] ∨
    ∃ t h, pyFloatOrZero (rget r "Temp") = some t ∧
      pyFloatOrZero (rget r "Humedad") = some h ∧
      weatherRecordMetrics r =
        [{ name := "chile_temperature_celsius", value := t,
           labels := [("station", (rget r "Estacion").getD "Unknown"),
                      ("code", (rget r "Codigo").getD "Unknown")] },
         { name := "chile_humidity_percent", value := h,
           labels := [("station", (rget r "Estacion").getD "Unknown"),
                      ("code", (rget r "Codigo").getD "Unknown")] }] := by
  rcases ht : pyFloatOrZero (rget r "Temp") with _ | t <;>
    rcases hh : pyFloatOrZero (rget r "Humedad") with _ | h <;>
      simp [weatherRecordMetrics, ht, hh]

theorem quakeRecordMetrics_cases (i : ℕ) (r : RawRecord) :
    quakeRecordMetrics i r = [] ∨
    ∃ mg dp, pyFloatOrZero (rget r "Magnitud") = some mg ∧
      pyFloatOrZero (rget r "Profundidad") = some dp ∧
      quakeRecordMetrics i r =
        [{ name := "chile_earthquake_magnitude", value := mg,
           labels := [("location", sanitizeLocation ((rget r "RefGeografica").getD "Unknown")),
                      ("index", toString i)] },
         { name := "chile_earthquake_depth_km", value := dp,
           labels := [("location", sanitizeLocation ((rget r "RefGeografica").getD "Unknown")),
                      ("index", toString i)] }] := by
  rcases hm : pyFloatOrZero (rget r "Magnitud") with _ | mg <;>
    rcases hd : pyFloatOrZero (rget r "Profundidad") with _ | dp <;>
      simp [quakeRecordMetrics, hm, hd]

theorem currencyRecordMetrics_cases (r : RawRecord) :
    currencyRecordMetrics r = [] ∨
    ∃ v, pyStrip ((rget r "Codigo").getD "") ∈ important ∧
      pyFloat (commaToDot ((rget r "Valor").getD "0")) = some v ∧
      currencyRecordMetrics r =
        [{ name := "chile_currency_clp", value := v,
           labels := [("code", pyStrip ((rget r "Codigo").getD "")),
                      ("name", pyStrip ((rget r "Nombre").getD "Unknown"))] }] := by
  by_cases hc : pyStrip ((rget r "Codigo").getD "") ∈ important
  · rcases hv : pyFloat (commaToDot ((rget r "Valor").getD "0")) with _ | v <;>
      simp [currencyRecordMetrics, hc, hv]
  · simp [currencyRecordMetrics, hc]

theorem quakeRecordMetrics_length (i : ℕ) (r : RawRecord) :
    (quakeRecordMetrics i r).length = 0 ∨ (quakeRecordMetrics i r).length = 2 := by
  rcases quakeRecordMetrics_cases i r with h | ⟨mg, dp, _, _, h⟩ <;> simp [h]

theorem quakeLoop_length_le (l : List RawRecord) : ∀ i : ℕ,
    (quakeLoop i l).length ≤ 2 * l.length := by
  induction l with
  | nil => intro i; simp [quakeLoop]
  | cons q rest ih =>
    intro i
    have h2 := quakeRecordMetrics_length i q
    have := ih (i + 1)
    simp only [quakeLoop, List.length_append, List.length_cons]
    rcases h2 with h2 | h2 <;> omega

theorem quakeRecordMetrics_index_label (i : ℕ) (r : RawRecord) :
    ∀ m ∈ quakeRecordMetrics i r, ("index", toString i) ∈ m.labels := by
  intro m hm
  rcases quakeRecordMetrics_cases i r with h | ⟨mg, dp, _, _, h⟩ <;> rw [h] at hm
  · simp at hm
  · simp only [List.mem_cons, List.not_mem_nil, or_false] at hm
    rcases hm with hm | hm <;> subst hm <;> simp

theorem quakeLoop_index_mem (l : List RawRecord) : ∀ (i : ℕ) (m : Metric),
    m ∈ quakeLoop i l → ∃ j : ℕ, i ≤ j ∧ j < i + l.length ∧ ("index", toString j) ∈ m.labels := by
  induction l with
  | nil => intro i m hm; simp [quakeLoop] at hm
  | cons q rest ih =>
    intro i m hm
    rw [quakeLoop, List.mem_append] at hm
    rcases hm with hm | hm
    · exact ⟨i, le_refl i, by simp, quakeRecordMetrics_index_label i q m hm⟩
    · obtain ⟨j, hj1, hj2, hj3⟩ := ih (i + 1) m hm
      exact ⟨j, by omega, by simp only [List.length_cons]; omega, hj3⟩

/-! ## The claims -/

/-- Claim C3: for every seismic response sequence of any length, only the
first 10 records are processed (records at index 10 and beyond are ignored),
so the seismic collector contributes at most 10 magnitude/depth metric pairs
(at most 20 metrics) to the batch, each labeled with its positional index
rendered as a string. -/
theorem C3_seismic_first_ten :
    ∀ quake_data : List RawRecord,
      collectQuakes quake_data = collectQuakes (quake_data.take 10) ∧
      (∀ extra : List RawRecord, 10 ≤ quake_data.length →
        collectQuakes (quake_data ++ extra) = collectQuakes quake_data) ∧
      (collectQuakes quake_data).length ≤ 20 ∧
      (∀ m ∈ collectQuakes quake_data,
        ∃ i : ℕ, i < 10 ∧ ("index", toString i) ∈ m.labels) := by
  intro quake_data
  refine ⟨?_, ?_, ?_, ?_⟩
  · simp [collectQuakes, List.take_take]
  · intro extra hlen
    simp [collectQuakes, List.take_append_of_le_length hlen]
  · have h1 := quakeLoop_length_le (quake_data.take 10) 0
    have h2 : (quake_data.take 10).length ≤ 10 := by simp [List.length_take]
    calc (collectQuakes quake_data).length ≤ 2 * (quake_data.take 10).length := h1
      _ ≤ 20 := by omega
  · intro m hm
    obtain ⟨j, hj1, hj2, hj3⟩ := quakeLoop_index_mem (quake_data.take 10) 0 m hm
    have h2 : (quake_data.take 10).length ≤ 10 := by simp [List.length_take]
    exact ⟨j, by omega, hj3⟩

/-- Witness for C3: a 12-record response (each record parses, values default
to 0) is truncated to 10 records, hence 20 metrics, and every metric carries
an index label below 10. -/
theorem C3_witness :
    collectQuakes (List.replicate 12 ([] : RawRecord) ++ [[("Magnitud", "9.9")]]) =
      collectQuakes (List.replicate 12 ([] : RawRecord)) ∧
    (collectQuakes (List.replicate 12 ([] : RawRecord))).length ≤ 20 := by
  have h := C3_seismic_first_ten (List.replicate 12 ([] : RawRecord))
  exact ⟨h.2.1 [[("Magnitud", "9.9")]] (by decide), h.2.2.1⟩

/-- Claim C10: record-level atomicity: the metrics of one source record are
appended only after all its numeric fields parsed, so a weather or seismic
record contributes exactly 0 or exactly 2 metrics and a currency record
exactly 0 or exactly 1, and the loops continue with the remaining records
after a skipped one. -/
theorem C10_record_atomicity :
    (∀ r : RawRecord,
      (weatherRecordMetrics r).length = 0 ∨ (weatherRecordMetrics r).length = 2) ∧
    (∀ (i : ℕ) (r : RawRecord),
      (quakeRecordMetrics i r).length = 0 ∨ (quakeRecordMetrics i r).length = 2) ∧
    (∀ r : RawRecord,
      (currencyRecordMetrics r).length = 0 ∨ (currencyRecordMetrics r).length = 1) ∧
    (∀ (r : RawRecord) (rest : List RawRecord),
      collectWeather (r :: rest) = weatherRecordMetrics r ++ collectWeather rest) ∧
    (∀ (i : ℕ) (r : RawRecord) (rest : List RawRecord),
      quakeLoop i (r :: rest) = quakeRecordMetrics i r ++ quakeLoop (i + 1) rest) ∧
    (∀ (r : RawRecord) (rest : List RawRecord),
      collectCurrency (r :: rest) = currencyRecordMetrics r ++ collectCurrency rest) := by
  refine ⟨?_, ?_, ?_, fun r rest => rfl, fun i r rest => rfl, fun r rest => rfl⟩
  · intro r
    rcases weatherRecordMetrics_cases r with h | ⟨t, hu, _, _, h⟩ <;> simp [h]
  · intro i r
    exact quakeRecordMetrics_length i r
  · intro r
    rcases currencyRecordMetrics_cases r with h | ⟨v, _, _, h⟩ <;> simp [h]

/-- Claim C7: the orchestrator attempts the Influx push first; the simple
push is attempted exactly when the first attempt fails; either success makes
the run successful; at most two attempts happen; and a push attempt yields
`true` exactly on a 2xx response (each raised exception is caught and turned
into `false`, i.e. the total function `pushResult`). -/
theorem C7_push_fallback :
    ∀ influxPost simplePost : PostOutcome,
      (pushPhase influxPost simplePost).map Prod.fst =
        (if pushResult influxPost then [Protocol.influx]
         else [Protocol.influx, Protocol.simple]) ∧
      (pushPhase influxPost simplePost).head? =
        some (Protocol.influx, pushResult influxPost) ∧
      (pushPhase influxPost simplePost).length ≤ 2 ∧
      ((∃ a ∈ pushPhase influxPost simplePost, a.1 = Protocol.simple) ↔
        pushResult influxPost = false) ∧
      ((∃ a ∈ pushPhase influxPost simplePost, a.2 = true) ↔
        (pushResult influxPost = true ∨ pushResult simplePost = true)) ∧
      (pushResult influxPost = true ↔ influxPost = PostOutcome.ok2xx) := by
  intro influxPost simplePost
  rcases influxPost with _ | ⟨s1, b1⟩ | m1 <;> rcases simplePost with _ | ⟨s2, b2⟩ | m2 <;>
    simp [pushPhase, pushResult]

/-- Claim C9: if any of the three required settings is absent (modelled as
the empty string, which is what `os.environ.get(_, "")` yields), the process
exits non-zero and performs no network activity; otherwise the run proceeds
to fetch and push. -/
theorem C9_config_gate :
    ∀ (cfg : Config) (env : NetEnv),
      (configOk cfg = false →
        mainEvents cfg env = [Ev.exitNonzero] ∧
        mainExitCode cfg = 1 ∧
        (∀ u : String, Ev.fetchGet u ∉ mainEvents cfg env) ∧
        (∀ (p : Protocol) (b : Bool), Ev.pushAttempt p b ∉ mainEvents cfg env)) ∧
      (configOk cfg = true →
        mainExitCode cfg = 0 ∧
        Ev.exitNonzero ∉ mainEvents cfg env ∧
        mainEvents cfg env =
          [Ev.fetchGet API_CLIMA, Ev.fetchGet API_SISMOS, Ev.fetchGet API_MONEDAS] ++
            (pushPhase env.influxPost env.simplePost).map
              (fun a => Ev.pushAttempt a.1 a.2)) ∧
      (configOk cfg = false ↔
        (cfg.PROMETHEUS_URL = "" ∨ cfg.PROMETHEUS_USER = "" ∨
          cfg.PROMETHEUS_PASSWORD = "")) := by
  intro cfg env
  refine ⟨?_, ?_, ?_⟩
  · intro h
    refine ⟨by simp [mainEvents, h], by simp [mainExitCode, h], ?_, ?_⟩
    · intro u; simp [mainEvents, h]
    · intro p b; simp [mainEvents, h]
  · intro h
    refine ⟨by simp [mainExitCode, h], ?_, by simp [mainEvents, h]⟩
    simp [mainEvents, h]
  · simp [configOk]
    tauto

/-- Witness for C9: with the URL missing the run is exactly a non-zero exit;
with all three settings present the exit code is 0. -/
theorem C9_witness :
    mainEvents ⟨"", "u", "p"⟩ ⟨.ok [], .ok [], .ok [], .ok2xx, .ok2xx⟩ = [Ev.exitNonzero] ∧
    mainExitCode ⟨"https://x", "u", "p"⟩ = 0 :=
  ⟨((C9_config_gate ⟨"", "u", "p"⟩ ⟨.ok [], .ok [], .ok [], .ok2xx, .ok2xx⟩).1
      (by decide)).1,
   ((C9_config_gate ⟨"https://x", "u", "p"⟩ ⟨.ok [], .ok [], .ok [], .ok2xx, .ok2xx⟩).2.1
      (by decide)).1⟩

/-- Claim C8: `fetch_json` is a total function (no exception reaches the
caller): every failing outcome yields the empty list, and the pipeline then
continues with the other sources, the failing source contributing zero
metrics to the batch. -/
theorem C8_fetch_isolation :
    (∀ data : List RawRecord, fetch_json (.ok data) = data) ∧
    (∀ o : FetchOutcome, (∀ data, o ≠ .ok data) → fetch_json o = []) ∧
    collectWeather [] = [] ∧ collectQuakes [] = [] ∧ collectCurrency [] = [] ∧
    (∀ (e s c : FetchOutcome), (∀ data, e ≠ .ok data) →
      collect_all_metrics e s c =
        collectQuakes (fetch_json s) ++ collectCurrency (fetch_json c)) ∧
    (∀ (w s c : FetchOutcome), (∀ data, s ≠ .ok data) →
      collect_all_metrics w s c =
        collectWeather (fetch_json w) ++ collectCurrency (fetch_json c)) ∧
    (∀ (w s c : FetchOutcome), (∀ data, c ≠ .ok data) →
      collect_all_metrics w s c =
        collectWeather (fetch_json w) ++ collectQuakes (fetch_json s)) := by
  have hfail : ∀ o : FetchOutcome, (∀ data, o ≠ .ok data) → fetch_json o = [] := by
    intro o h
    rcases o with d | m | s | m
    · exact absurd rfl (h d)
    all_goals rfl
  refine ⟨fun data => rfl, hfail, rfl, rfl, rfl, ?_, ?_, ?_⟩
  · intro e s c he
    simp [collect_all_metrics, hfail e he, collectWeather, concatMapList]
  · intro w s c hs
    simp [collect_all_metrics, hfail s hs, collectQuakes, List.take_nil, quakeLoop]
  · intro w s c hc
    simp [collect_all_metrics, hfail c hc, collectCurrency, concatMapList]

/-- Witness for C8: a timed-out weather fetch leaves exactly the currency
metric collected from the other sources. -/
theorem C8_witness :
    collect_all_metrics (.transportError "timeout") (.ok [])
        (.ok [[("Codigo", "USD"), ("Valor", "950,25")]]) =
      collectQuakes (fetch_json (.ok [])) ++
        collectCurrency (fetch_json (.ok [[("Codigo", "USD"), ("Valor", "950,25")]])) :=
  C8_fetch_isolation.2.2.2.2.2.1 (.transportError "timeout") (.ok [])
    (.ok [[("Codigo", "USD"), ("Valor", "950,25")]])
    (fun data h => by cases h)

/-- Counterexample to claim C1 as stated: the record/batch membership is not
an if-and-only-if on the raw `Codigo` field.  A record whose code is the
allow-listed `"USD"` but whose `Valor` does not parse contributes no metric,
and a record whose `Codigo` is `" USD"` (not itself in the allow-list) is
stripped to `"USD"` and does contribute one. -/
theorem C1_counterexample :
    "USD" ∈ important ∧
    currencyRecordMetrics [("Codigo", "USD"), ("Valor", "abc")] = [] ∧
    " USD" ∉ important ∧
    currencyRecordMetrics [("Codigo", " USD")] =
      [{ name := "chile_currency_clp", value := .finite 0 0,
         labels := [("code", "USD"), ("name", "Unknown")] }] := by decide

/-- Claim C1 (amended): a `chile_currency_clp` metric is added for a currency
record iff its whitespace-stripped `Codigo` is one of the 10 allow-listed
codes AND its comma-normalized `Valor` parses as a float; the code comparison
is exact and case-sensitive (no case folding), and a record with any other
code is silently dropped, contributing no metric and raising no error (the
collector is a total function). -/
theorem C1_currency_filter_amended :
    ∀ r : RawRecord,
      (currencyRecordMetrics r ≠ [] ↔
        (pyStrip ((rget r "Codigo").getD "") ∈ important ∧
          pyFloat (commaToDot ((rget r "Valor").getD "0")) ≠ none)) ∧
      (pyStrip ((rget r "Codigo").getD "") ∉ important → currencyRecordMetrics r = []) ∧
      "usd" ∉ important ∧
      currencyRecordMetrics [("Codigo", "usd"), ("Valor", "1")] = [] := by
  intro r
  refine ⟨?_, ?_, by decide, by decide⟩
  · by_cases hc : pyStrip ((rget r "Codigo").getD "") ∈ important
    · rcases hv : pyFloat (commaToDot ((rget r "Valor").getD "0")) with _ | v <;>
        simp [currencyRecordMetrics, hc, hv]
    · simp [currencyRecordMetrics, hc]
  · intro hc
    simp [currencyRecordMetrics, hc]

/-- Witness for C1 (amended): the non-allow-listed code `"JPY"` is dropped. -/
theorem C1_currency_filter_witness :
    currencyRecordMetrics [("Codigo", "JPY"), ("Valor", "5,2")] = [] :=
  (C1_currency_filter_amended [("Codigo", "JPY"), ("Valor", "5,2")]).2.1 (by decide)

/-- Claim C2: `Valor` is normalized by turning every comma into a period and
changing nothing else before parsing; `"1234,56"` parses to the value
`1234.56` and yields a metric, while `"1.234,56"` becomes `"1.234.56"`, fails
to parse and the record is skipped (dots are not stripped); in general, every
emitted currency metric carries exactly the value parsed from the normalized
`Valor`. -/
theorem C2_currency_comma_normalization :
    (∀ s : String,
      (commaToDot s).data = s.data.map (fun c => if c = ',' then '.' else c)) ∧
    commaToDot "1234,56" = "1234.56" ∧
    commaToDot "1.234,56" = "1.234.56" ∧
    pyFloat "1234.56" = some (.finite 123456 (-2)) ∧
    (PyNum.finite 123456 (-2)).toRat = some (1234.56 : ℚ) ∧
    pyFloat "1.234.56" = none ∧
    currencyRecordMetrics [("Codigo", "USD"), ("Valor", "1234,56")] =
      [{ name := "chile_currency_clp", value := .finite 123456 (-2),
         labels := [("code", "USD"), ("name", "Unknown")] }] ∧
    currencyRecordMetrics [("Codigo", "USD"), ("Valor", "1.234,56")] = [] ∧
    (∀ r : RawRecord, ∀ m ∈ currencyRecordMetrics r,
      some m.value = pyFloat (commaToDot ((rget r "Valor").getD "0"))) := by
  refine ⟨fun s => rfl, by decide, by decide, by decide, by norm_num [PyNum.toRat],
    by decide, by decide, by decide, ?_⟩
  intro r m hm
  rcases currencyRecordMetrics_cases r with h | ⟨v, _, hv, h⟩ <;> rw [h] at hm
  · simp at hm
  · simp at hm
    subst hm
    simp [hv]

/-- Witness for C2: the spec's own scenario record `"950,25"` parses to the
value stored in its emitted metric. -/
theorem C2_witness :
    some (PyNum.finite 95025 (-2)) =
      pyFloat (commaToDot ((rget [("Codigo", "USD"), ("Valor", "950,25")] "Valor").getD "0")) :=
  C2_currency_comma_normalization.2.2.2.2.2.2.2.2
    [("Codigo", "USD"), ("Valor", "950,25")]
    { name := "chile_currency_clp", value := .finite 95025 (-2),
      labels := [("code", "USD"), ("name", "Unknown")] } (by decide)

/-- Counterexample to claim C4 as stated: Python `float("inf")` parses
successfully, so an upstream `Temp` of `"inf"` puts a metric with a
non-finite value into the batch produced by the pipeline. -/
theorem C4_counterexample :
    collect_all_metrics (.ok [[("Temp", "inf")]]) (.ok []) (.ok []) =
      [{ name := "chile_temperature_celsius", value := PyNum.pinf,
         labels := [("station", "Unknown"), ("code", "Unknown")] },
       { name := "chile_humidity_percent", value := .finite 0 0,
         labels := [("station", "Unknown"), ("code", "Unknown")] }] ∧
    PyNum.pinf.isFinite = false ∧
    PyNum.pinf.toRat = none := by decide

/-- Claim C4 (amended): every metric in the batch has a successfully-parsed
numeric value — a record whose numeric field fails to parse contributes no
metric and is skipped — but the value is not necessarily finite, because
`float` accepts infinity/NaN literals. -/
theorem C4_parsed_values_amended :
    (∀ r : RawRecord, ∀ m ∈ weatherRecordMetrics r,
      some m.value = pyFloatOrZero (rget r "Temp") ∨
      some m.value = pyFloatOrZero (rget r "Humedad")) ∧
    (∀ r : RawRecord, pyFloatOrZero (rget r "Temp") = none →
      weatherRecordMetrics r = []) ∧
    (∀ r : RawRecord, pyFloatOrZero (rget r "Humedad") = none →
      weatherRecordMetrics r = []) ∧
    (∀ (i : ℕ) (r : RawRecord), ∀ m ∈ quakeRecordMetrics i r,
      some m.value = pyFloatOrZero (rget r "Magnitud") ∨
      some m.value = pyFloatOrZero (rget r "Profundidad")) ∧
    (∀ (i : ℕ) (r : RawRecord), pyFloatOrZero (rget r "Magnitud") = none →
      quakeRecordMetrics i r = []) ∧
    (∀ (i : ℕ) (r : RawRecord), pyFloatOrZero (rget r "Profundidad") = none →
      quakeRecordMetrics i r = []) ∧
    (∀ r : RawRecord, ∀ m ∈ currencyRecordMetrics r,
      some m.value = pyFloat (commaToDot ((rget r "Valor").getD "0"))) ∧
    (∀ r : RawRecord, pyFloat (commaToDot ((rget r "Valor").getD "0")) = none →
      currencyRecordMetrics r = []) := by
  refine ⟨?_, ?_, ?_, ?_, ?_, ?_, ?_, ?_⟩
  · intro r m hm
    rcases weatherRecordMetrics_cases r with h | ⟨t, hum, ht, hh, h⟩ <;> rw [h] at hm
    · simp at hm
    · simp at hm
      rcases hm with hm | hm <;> subst hm
      · left; rw [ht]
      · right; rw [hh]
  · intro r h
    simp [weatherRecordMetrics, h]
  · intro r h
    rcases ht : pyFloatOrZero (rget r "Temp") with _ | t <;>
      simp [weatherRecordMetrics, ht, h]
  · intro i r m hm
    rcases quakeRecordMetrics_cases i r with h | ⟨mg, dp, hmg, hdp, h⟩ <;> rw [h] at hm
    · simp at hm
    · simp at hm
      rcases hm with hm | hm <;> subst hm
      · left; rw [hmg]
      · right; rw [hdp]
  · intro i r h
    simp [quakeRecordMetrics, h]
  · intro i r h
    rcases hmg : pyFloatOrZero (rget r "Magnitud") with _ | mg <;>
      simp [quakeRecordMetrics, hmg, h]
  · intro r m hm
    rcases currencyRecordMetrics_cases r with h | ⟨v, _, hv, h⟩ <;> rw [h] at hm
    · simp at hm
    · simp at hm
      subst hm
      simp [hv]
  · intro r h
    by_cases hc : pyStrip ((rget r "Codigo").getD "") ∈ important <;>
      simp [currencyRecordMetrics, hc, h]

/-- Witness for C4 (amended): a weather record with unparsable `Temp`
contributes no metric. -/
theorem C4_witness : weatherRecordMetrics [("Temp", "21,5")] = [] :=
  C4_parsed_values_amended.2.1 [("Temp", "21,5")] (by decide)

/-- Claim C5: the spec's weather scenario record yields exactly the
temperature metric `21.5` and the humidity metric `45`, both labeled
`station="Santiago"`, `code="330020"`; in general every record whose two
numeric fields parse yields exactly these two metrics, with `"Unknown"` as
the default station name/code and `0` the default for an absent numeric
field. -/
theorem C5_weather_two_metrics :
    collect_all_metrics
        (.ok [[("Estacion", "Santiago"), ("Codigo", "330020"),
               ("Temp", "21.5"), ("Humedad", "45")]]) (.ok []) (.ok []) =
      [{ name := "chile_temperature_celsius", value := .finite 215 (-1),
         labels := [("station", "Santiago"), ("code", "330020")] },
       { name := "chile_humidity_percent", value := .finite 45 0,
         labels := [("station", "Santiago"), ("code", "330020")] }] ∧
    (PyNum.finite 215 (-1)).toRat = some (21.5 : ℚ) ∧
    (PyNum.finite 45 0).toRat = some (45 : ℚ) ∧
    (∀ (r : RawRecord) (t hum : PyNum),
      pyFloatOrZero (rget r "Temp") = some t →
      pyFloatOrZero (rget r "Humedad") = some hum →
      weatherRecordMetrics r =
        [{ name := "chile_temperature_celsius", value := t,
           labels := [("station", (rget r "Estacion").getD "Unknown"),
                      ("code", (rget r "Codigo").getD "Unknown")] },
         { name := "chile_humidity_percent", value := hum,
           labels := [("station", (rget r "Estacion").getD "Unknown"),
                      ("code", (rget r "Codigo").getD "Unknown")] }]) ∧
    pyFloatOrZero none = some (.finite 0 0) := by
  refine ⟨by decide, by norm_num [PyNum.toRat], by norm_num [PyNum.toRat], ?_, rfl⟩
  intro r t hum ht hh
  simp [weatherRecordMetrics, ht, hh]

/-- Witness for C5: the general shape applied to the scenario record. -/
theorem C5_witness :
    weatherRecordMetrics
        [("Estacion", "Santiago"), ("Codigo", "330020"),
         ("Temp", "21.5"), ("Humedad", "45")] =
      [{ name := "chile_temperature_celsius", value := .finite 215 (-1),
         labels := [("station", "Santiago"), ("code", "330020")] },
       { name := "chile_humidity_percent", value := .finite 45 0,
         labels := [("station", "Santiago"), ("code", "330020")] }] :=
  C5_weather_two_metrics.2.2.2.1
    [("Estacion", "Santiago"), ("Codigo", "330020"), ("Temp", "21.5"), ("Humedad", "45")]
    (.finite 215 (-1)) (.finite 45 0) (by decide) (by decide)

theorem sanitizeTagValue_clean (v : String) :
    ' ' ∉ (sanitizeTagValue v).data ∧ ',' ∉ (sanitizeTagValue v).data := by
  have hd : (sanitizeTagValue v).data =
      (v.data.map (fun c => if c = ' ' then '_' else c)).filter (fun c => c ≠ ',') := rfl
  rw [hd]
  constructor
  · intro hmem
    have hmap := (List.mem_filter.mp hmem).1
    obtain ⟨c, _, hceq⟩ := List.mem_map.mp hmap
    by_cases h : c = ' ' <;> simp [h] at hceq
  · intro hmem
    have := (List.mem_filter.mp hmem).2
    simp at this

theorem sanitizeLocation_clean (s : String) :
    '"' ∉ (sanitizeLocation s).data ∧ '\x27' ∉ (sanitizeLocation s).data ∧
    ',' ∉ (sanitizeLocation s).data := by
  have hd : (sanitizeLocation s).data =
      (((s.data.take 40).filter (fun c => c ≠ '"')).filter
        (fun c => c ≠ '\x27')).filter (fun c => c ≠ ',') := rfl
  rw [hd]
  refine ⟨?_, ?_, ?_⟩
  · intro hmem
    have h1 := (List.mem_filter.mp hmem).1
    have h2 := (List.mem_filter.mp h1).1
    have := (List.mem_filter.mp h2).2
    simp at this
  · intro hmem
    have h1 := (List.mem_filter.mp hmem).1
    have := (List.mem_filter.mp h1).2
    simp at this
  · intro hmem
    have := (List.mem_filter.mp hmem).2
    simp at this

/-- Claim C6: the Influx (field-line-format) encoder emits one line per
metric of the shape `name,k1=v1,k2=v2 value=<value> <timestamp>`, where every
tag value has its spaces replaced by underscores and its commas removed, and
the single nanosecond timestamp ends every line of the batch; seismic
location label values additionally contain no quote characters and no
commas. -/
theorem C6_influx_line_format :
    (∀ v : String,
      ' ' ∉ (sanitizeTagValue v).data ∧ ',' ∉ (sanitizeTagValue v).data) ∧
    (∀ (ts : ℕ) (m : Metric), m.labels ≠ [] →
      influxLine ts m =
        m.name ++ "," ++
          String.intercalate ","
            (m.labels.map (fun kv => kv.1 ++ "=" ++ sanitizeTagValue kv.2)) ++
          " value=" ++ pyNumStr m.value ++ " " ++ toString ts) ∧
    (∀ (ts : ℕ) (metrics : List Metric),
      influxBody ts metrics = String.intercalate "\n" (metrics.map (influxLine ts))) ∧
    (∀ (ts : ℕ) (m : Metric), ∃ pre : String,
      influxLine ts m = pre ++ " " ++ toString ts) ∧
    (∀ (i : ℕ) (q : RawRecord), ∀ m ∈ quakeRecordMetrics i q, ∀ kv ∈ m.labels,
      kv.1 = "location" →
        '"' ∉ kv.2.data ∧ '\x27' ∉ kv.2.data ∧ ',' ∉ kv.2.data) := by
  refine ⟨sanitizeTagValue_clean, ?_, fun ts metrics => rfl, ?_, ?_⟩
  · intro ts m hne
    rcases hl : m.labels with _ | ⟨kv, rest⟩
    · exact absurd hl hne
    · rw [influxLine, influxTags, hl]
      simp
  · intro ts m
    by_cases hl : m.labels.isEmpty
    · exact ⟨m.name ++ " value=" ++ pyNumStr m.value, by simp [influxLine, hl]⟩
    · exact ⟨m.name ++ "," ++ influxTags m.labels ++ " value=" ++ pyNumStr m.value,
        by simp [influxLine, hl]⟩
  · intro i q m hm kv hkv hloc
    rcases quakeRecordMetrics_cases i q with h | ⟨mg, dp, _, _, h⟩ <;> rw [h] at hm
    · simp at hm
    · simp only [List.mem_cons, List.not_mem_nil, or_false] at hm
      rcases hm with hm | hm <;> subst hm <;>
        simp only [List.mem_cons, List.not_mem_nil, or_false] at hkv <;>
          rcases hkv with hkv | hkv <;> subst hkv
      · exact sanitizeLocation_clean _
      · simp at hloc
      · exact sanitizeLocation_clean _
      · simp at hloc

/-- Witness for C6: the labeled-line shape applied to a concrete metric, and
the location label of a concrete quake record is clean. -/
theorem C6_witness :
    influxLine 7 { name := "m", value := .finite 45 0, labels := [("a", "x y")] } =
      "m" ++ "," ++
        String.intercalate ","
          ([("a", "x y")].map (fun kv => kv.1 ++ "=" ++ sanitizeTagValue kv.2)) ++
        " value=" ++ pyNumStr (.finite 45 0) ++ " " ++ toString 7 :=
  C6_influx_line_format.2.1 7
    { name := "m", value := .finite 45 0, labels := [("a", "x y")] } (by decide)

